import Mathlib

/-!
Shallow embedding of the particle-simulator core (PouyanJay/particlesimulator).

The embedded source is `src/components/PhysicsContainer.tsx` together with the
host logic in `src/App.tsx`.  JavaScript numbers are modelled as real numbers;
where the source can produce the IEEE special values NaN and Infinity (only the
sampled velocities read back from the physics engine), components are modelled
by an explicit sum type `JSNum`.  Randomness (`Math.random()`) is modelled by
explicit numeric parameters or streams assumed to lie in `[0, 1)`.
-/

namespace ParticleSim

/-- Three-component vector, modelling the `{x, y, z}` records of the source. -/
structure Vec3 where
  x : ℝ
  y : ℝ
  z : ℝ

instance : Inhabited Vec3 := ⟨⟨0, 0, 0⟩⟩

/-- Squared Euclidean magnitude, as computed by `vel.x*vel.x + vel.y*vel.y + vel.z*vel.z`. -/
noncomputable def Vec3.normSq (v : Vec3) : ℝ := v.x ^ 2 + v.y ^ 2 + v.z ^ 2

/-- Euclidean magnitude, as computed by `Math.sqrt(...)` throughout the source. -/
noncomputable def Vec3.norm (v : Vec3) : ℝ := Real.sqrt v.normSq

/-- Componentwise scaling, modelling expressions such as `{ x; vel.x * scale, ... }`. -/
noncomputable def Vec3.scale (c : ℝ) (v : Vec3) : Vec3 := ⟨c * v.x, c * v.y, c * v.z⟩

/-- Spherical-to-cartesian conversion used whenever the source picks a random
direction: `vx = speed*sin(theta)*cos(phi)`, `vy = speed*sin(theta)*sin(phi)`,
`vz = speed*cos(theta)`. -/
noncomputable def sphericalVelocity (speed phi theta : ℝ) : Vec3 :=
  ⟨speed * (Real.sin theta * Real.cos phi),
   speed * (Real.sin theta * Real.sin phi),
   speed * Real.cos theta⟩

/-- Warning level of the density advisory (`'none' | 'warning' | 'critical'`). -/
inductive WarningLevel
  | none
  | warning
  | critical
deriving DecidableEq, Repr

/-- Result record of `calculatePackingRatio`.  These four fields are exactly the
fields of the object literal returned at the end of that function. -/
structure DensityStats where
  packingRatio : ℝ
  warningLevel : WarningLevel
  particlesPerAxis : ℝ
  averageSpacing : ℝ

/-- Embedding of `calculatePackingRatio` (PhysicsContainer.tsx lines 211-252),
with the `DENSITY_WARNINGS` thresholds 0.1 (warning) and 0.2 (critical). -/
noncomputable def calculatePackingRatio (particleCount particleSize containerSize : ℝ) :
    DensityStats :=
  let particleRadius := particleSize
  let particleVolume := (4 / 3) * Real.pi * particleRadius ^ 3 * particleCount
  let containerVolume := containerSize ^ 3
  let packingRatio := particleVolume / containerVolume
  let particlesPerAxis := particleCount ^ ((1 : ℝ) / 3)
  let averageContainerDimPerParticle := containerSize / particlesPerAxis
  let averageSpacing := averageContainerDimPerParticle / (particleSize * 2)
  let warningLevel :=
    if packingRatio ≥ 0.2 then WarningLevel.critical
    else if packingRatio ≥ 0.1 then WarningLevel.warning
    else WarningLevel.none
  ⟨packingRatio, warningLevel, particlesPerAxis, averageSpacing⟩

/-- Modelled from the spec: `calculateMaxAllowableParticles` is imported by
`App.tsx` from `./components/PhysicsContainer` but is not defined anywhere in
the provided sources.  The spec describes it as the largest integer particle
count for which the packing ratio stays below the critical threshold 0.2 at the
current radius and container size, a closed-form inverse of the packing-ratio
formula: `⌊0.2 · s³ / ((4/3)π r³)⌋`. -/
noncomputable def calculateMaxAllowableParticles (particleSize containerSize : ℝ) : ℤ :=
  ⌊(0.2 * containerSize ^ 3) / ((4 / 3) * Real.pi * particleSize ^ 3)⌋

/-- The host-side record type `DensityWarningData` declared in `App.tsx`.  It
extends the physics layer's snapshot with `maxAllowableParticles` and
`exceedsMaximum`. -/
structure DensityWarningData where
  packingRatio : ℝ
  warningLevel : WarningLevel
  particlesPerAxis : ℝ
  averageSpacing : ℝ
  maxAllowableParticles : ℤ
  exceedsMaximum : Bool

/-- The snapshot actually delivered to `onDensityWarning` by PhysicsContainer:
it is the four-field result of `calculatePackingRatio`, so when the host reads
the two extra `DensityWarningData` fields it sees JavaScript `undefined`, i.e.
falsy `exceedsMaximum` and no usable `maxAllowableParticles` (modelled as 0). -/
noncomputable def deliveredWarningData (particleCount particleSize containerSize : ℝ) :
    DensityWarningData :=
  let d := calculatePackingRatio particleCount particleSize containerSize
  ⟨d.packingRatio, d.warningLevel, d.particlesPerAxis, d.averageSpacing, 0, false⟩

/-- Initial value of the `densityWarning` state in `App.tsx`. -/
def initialDensityWarning : DensityWarningData :=
  ⟨0, WarningLevel.none, 0, 0, 0, false⟩

/-- Host state touched by `handleDensityWarning` in `App.tsx`. -/
structure AppState where
  particleCount : ℤ
  densityWarning : DensityWarningData
  enforcingParticleLimit : Bool

/-- Embedding of `handleDensityWarning` (App.tsx lines 110-123): store the
warning, and when `warning.exceedsMaximum` holds and no enforcement is already
in progress, clamp the configured particle count to `maxAllowableParticles`. -/
def handleDensityWarning (st : AppState) (warning : DensityWarningData) : AppState :=
  let st1 := { st with densityWarning := warning }
  if warning.exceedsMaximum = true ∧ st1.enforcingParticleLimit = false then
    { st1 with particleCount := warning.maxAllowableParticles, enforcingParticleLimit := true }
  else st1

/-- Clamp to the unit interval, `Math.max(0, Math.min(1, x))`. -/
noncomputable def clamp01 (x : ℝ) : ℝ := max 0 (min 1 x)

/-- Embedding of `calculateDensityAdjustedThreshold` (PhysicsContainer.tsx lines
169-197) with the `COLLISION_DETECTION` constants: `lowDensityThreshold = 0.1`,
`highDensityThreshold = 0.5`, `maxDensityThresholdReduction = 0.8`,
`baseSpeedChangeThreshold = 0.2`, `minSpeedLowDensity = 0.5`,
`minSpeedHighDensity = 0.05`.  Returns
`(speedChangeThreshold, minSpeedForCollision)`. -/
noncomputable def calculateDensityAdjustedThreshold (density : ℝ) : ℝ × ℝ :=
  let normalizedDensity := max 0 (min 1 ((density - 0.1) / (0.5 - 0.1)))
  let thresholdReduction := 0.8 * normalizedDensity ^ 2
  let speedChangeThreshold := 0.2 * (1.0 - thresholdReduction)
  let minSpeedForCollision := 0.5 - (0.5 - 0.05) * normalizedDensity ^ (1.5 : ℝ)
  (speedChangeThreshold, minSpeedForCollision)

/-- Per-particle collision status record (`ParticleCollisionStatus` in the
source): `isColliding`, `collisionTime` (when the collision started, seconds),
`lastUpdateTime`. -/
structure ParticleCollisionStatus where
  isColliding : Bool
  collisionTime : ℝ
  lastUpdateTime : ℝ

/-- The status written for every particle by the initialization effect
(PhysicsContainer.tsx lines 377-386). -/
def initialCollisionStatus : ParticleCollisionStatus := ⟨false, 0, 0⟩

/-- State touched by `handleParticleCollision`: the running collision counter
and the particle's status record. -/
structure CollisionEnv where
  collisionCounter : ℕ
  status : ParticleCollisionStatus

/-- Embedding of `handleParticleCollision` (PhysicsContainer.tsx lines 403-435):
count a new collision when the particle was not already colliding, or its
previous collision is older than the fade duration; always stamp the status
with `isColliding = true` and `collisionTime = currentTime`. -/
noncomputable def handleParticleCollision (collisionFadeDuration currentTime : ℝ)
    (env : CollisionEnv) : CollisionEnv :=
  let isNewCollision :=
    env.status.isColliding = false ∨
      (env.status.isColliding = true ∧
        currentTime - env.status.collisionTime > collisionFadeDuration)
  let counter := if isNewCollision then env.collisionCounter + 1 else env.collisionCounter
  { collisionCounter := counter,
    status := ⟨true, currentTime, currentTime⟩ }

/-- Embedding of the fade housekeeping in the third `useFrame` pass
(PhysicsContainer.tsx lines 824-851): while a collision is recorded
(`collisionTime > 0`) compute the fade progress `min((now − start)/duration, 1)`
and, once it reaches 1, reset the status to the idle record. -/
noncomputable def fadeUpdateStatus (fadeDuration currentTime : ℝ)
    (st : ParticleCollisionStatus) : ParticleCollisionStatus :=
  if st.collisionTime > 0 then
    let fadeProgress := min ((currentTime - st.collisionTime) / fadeDuration) 1.0
    if fadeProgress < 1.0 then st else ⟨false, 0, 0⟩
  else st

/-- Embedding of the stuck-particle recovery (PhysicsContainer.tsx lines
964-975 together with `resetStuckParticle`, lines 552-563): a particle still
marked colliding for longer than twice the fade duration is force-reset. -/
noncomputable def stuckRecoveryUpdate (fadeDuration now : ℝ)
    (st : ParticleCollisionStatus) : ParticleCollisionStatus :=
  if st.isColliding = true ∧ now - st.collisionTime > fadeDuration * 2 then ⟨false, 0, 0⟩
  else st

/-- The invariant claimed by the spec: `isColliding == false` iff the stored
collision start time is zero. -/
def statusInvariant (st : ParticleCollisionStatus) : Prop :=
  st.isColliding = false ↔ st.collisionTime = 0

/-- JavaScript number: NaN, signed infinity, or a finite real. -/
inductive JSNum
  | nan
  | posInf
  | negInf
  | fin (val : ℝ)

/-- The `isNaN` predicate of JavaScript. -/
def JSNum.isNaN : JSNum → Bool
  | .nan => true
  | _ => false

/-- The `isFinite` predicate of JavaScript. -/
def JSNum.isFinite : JSNum → Bool
  | .fin _ => true
  | _ => false

/-- The comparison `Math.abs(x) > c`: false for NaN (all NaN comparisons are
false), true for either infinity, and the real comparison otherwise. -/
def JSNum.absGt (x : JSNum) (c : ℝ) : Prop :=
  match x with
  | .nan => False
  | .posInf => True
  | .negInf => True
  | .fin v => |v| > c

/-- Velocity vector as read back from the engine, components possibly NaN or
infinite. -/
structure JSVec3 where
  x : JSNum
  y : JSNum
  z : JSNum

/-- Injection of an ordinary (finite) vector into `JSVec3`. -/
def toJSVec (v : Vec3) : JSVec3 := ⟨.fin v.x, .fin v.y, .fin v.z⟩

/-- Embedding of `hasInvalidVelocity` (PhysicsContainer.tsx lines 161-166):
any NaN component, any non-finite component, or any component of magnitude
exceeding 100. -/
def hasInvalidVelocity (vel : JSVec3) : Prop :=
  vel.x.isNaN = true ∨ vel.y.isNaN = true ∨ vel.z.isNaN = true ∨
  vel.x.isFinite = false ∨ vel.y.isFinite = false ∨ vel.z.isFinite = false ∨
  vel.x.absGt 100 ∨ vel.y.absGt 100 ∨ vel.z.absGt 100

noncomputable instance (x : JSNum) (c : ℝ) : Decidable (x.absGt c) := by
  unfold JSNum.absGt
  cases x <;> infer_instance

noncomputable instance (vel : JSVec3) : Decidable (hasInvalidVelocity vel) := by
  unfold hasInvalidVelocity
  infer_instance

/-- Per-particle data consumed by the invalid-velocity recovery in the first
`useFrame` pass: the stored target speed, the two random angles this particle
would draw, its sampled velocity and its collision environment. -/
structure TickParticle where
  targetSpeed : ℝ
  phi : ℝ
  theta : ℝ
  vel : JSVec3
  env : CollisionEnv

/-- Embedding of the invalid-velocity recovery (PhysicsContainer.tsx lines
732-752): when the sampled velocity is invalid, replace it by a random
direction at `min(particleSpeeds.get(index) || 0.5, 2.0)` and mark the particle
colliding; otherwise leave the particle untouched.  The JavaScript `|| 0.5`
fallback makes a zero (or missing) stored speed read as 0.5. -/
noncomputable def invalidVelocityStep (fadeDuration currentTime : ℝ)
    (p : TickParticle) : TickParticle :=
  if hasInvalidVelocity p.vel then
    let originalSpeed := if p.targetSpeed = 0 then 0.5 else p.targetSpeed
    let safeSpeed := min originalSpeed 2.0
    { p with
      vel := toJSVec (sphericalVelocity safeSpeed p.phi p.theta),
      env := handleParticleCollision fadeDuration currentTime p.env }
  else p

/-- The first pass applies the recovery to every tracked particle in turn; the
`return` in the source only skips the remainder of the current particle's
callback body, never the other particles. -/
noncomputable def firstPassInvalidRecovery (fadeDuration currentTime : ℝ)
    (ps : List TickParticle) : List TickParticle :=
  ps.map (invalidVelocityStep fadeDuration currentTime)

/-- Embedding of the zero-friction stability correction (PhysicsContainer.tsx
lines 853-897): reseed below speed 0.05 at `min(originalSpeed, 1.0)`, cap above
10.0, and otherwise boost a particle slower than 85% of its target whenever the
relative deviation exceeds 15%. -/
noncomputable def zeroFrictionCorrect (originalSpeed phi theta : ℝ) (vel : Vec3) : Vec3 :=
  let currentSpeed := vel.norm
  if currentSpeed < 0.05 then
    sphericalVelocity (min originalSpeed 1.0) phi theta
  else if currentSpeed > 10.0 then
    Vec3.scale (10.0 / currentSpeed) vel
  else if |currentSpeed - originalSpeed| / originalSpeed > 0.15 ∧
      currentSpeed < originalSpeed * 0.85 then
    Vec3.scale (min originalSpeed 5.0 / currentSpeed) vel
  else vel

/-- Embedding of the low-friction correction (PhysicsContainer.tsx lines
898-919): only boosts a particle that lost half its speed and is below 0.1,
with a boost factor inversely related to the friction coefficient. -/
noncomputable def lowFrictionCorrect (frictionCoefficient originalSpeed : ℝ)
    (vel : Vec3) : Vec3 :=
  let currentSpeed := vel.norm
  if currentSpeed < originalSpeed * 0.5 ∧ currentSpeed < 0.1 then
    let correctionFactor := 1.0 - min (frictionCoefficient * 10) 0.9
    let boostSpeed := originalSpeed * correctionFactor * 0.5
    if boostSpeed > currentSpeed then Vec3.scale (boostSpeed / currentSpeed) vel else vel
  else vel

/-- Regime dispatch of the third-pass speed correction: the zero-friction
branch runs when both friction toggles are off, the low-friction branch when
the coefficient is below 0.05, and otherwise no correction is applied. -/
noncomputable def speedCorrection (ppFriction pwFriction : Bool)
    (frictionCoefficient originalSpeed phi theta : ℝ) (vel : Vec3) : Vec3 :=
  if ppFriction = false ∧ pwFriction = false then
    zeroFrictionCorrect originalSpeed phi theta vel
  else if frictionCoefficient < 0.05 then
    lowFrictionCorrect frictionCoefficient originalSpeed vel
  else vel

/-- State read and written by the stall watchdog interval callback. -/
structure WatchdogState where
  lastActivityTime : ℝ
  simulationActive : Bool
  velocities : List Vec3
  targetSpeeds : List ℝ

/-- Reseed speed for particle `i` in the watchdog:
`min(particleSpeeds.get(index) || initialVelocity, 2.0)`; a missing or zero
stored speed falls back (JavaScript falsy) to the configured initial
velocity. -/
noncomputable def stallReseedSpeed (initialVelocity : ℝ) (targetSpeeds : List ℝ)
    (i : ℕ) : ℝ :=
  let stored := targetSpeeds.getD i 0
  let originalSpeed := if stored = 0 then initialVelocity else stored
  min originalSpeed 2.0

/-- Embedding of the stall-check interval body (PhysicsContainer.tsx lines
606-659): when more than 5000 ms have passed since the last recorded activity
and the simulation is flagged active, scan for any particle with speed above
0.005; only when none is found, reseed every particle's velocity with a random
direction at its capped stored speed and reset the activity clock. -/
noncomputable def stallCheck (initialVelocity now : ℝ) (randPhi randTheta : ℕ → ℝ)
    (st : WatchdogState) : WatchdogState :=
  if now - st.lastActivityTime > 5000 ∧ st.simulationActive = true then
    if ∃ v ∈ st.velocities, v.norm > 0.005 then st
    else
      { st with
        velocities := (List.range st.velocities.length).map fun i =>
          sphericalVelocity (stallReseedSpeed initialVelocity st.targetSpeeds i)
            (randPhi i) (randTheta i),
        lastActivityTime := now }
  else st

/-- State of the collision-count reporting: the accumulated counter and the
time of the last flush. -/
structure FlushState where
  collisionCounter : ℕ
  lastReportedCollisionTime : ℝ

/-- Embedding of the collision-count flush at the end of a non-skipped tick
(PhysicsContainer.tsx lines 934-942): when at least 0.5 s have elapsed since
the previous flush, report the counter, reset it to zero and stamp the flush
time; otherwise report nothing and leave the state unchanged. -/
noncomputable def collisionFlush (now : ℝ) (st : FlushState) : Option ℕ × FlushState :=
  if now - st.lastReportedCollisionTime ≥ 0.5 then
    (some st.collisionCounter, ⟨0, now⟩)
  else (none, st)

/-- Embedding of `getContainerSize` (PhysicsContainer.tsx lines 82-89, and its
duplicate in App.tsx lines 263-267): scale the base size 2.5 by the cube root
of `particleCount / 100`, bounded to `[0.8, 2.0]`. -/
noncomputable def getContainerSize (particleCount : ℕ) : ℝ :=
  let scaleFactor := ((particleCount : ℝ) / 100) ^ ((1 : ℝ) / 3)
  let boundedScaleFactor := max 0.8 (min 2.0 scaleFactor)
  2.5 * boundedScaleFactor

/-- The container size actually used (PhysicsContainer.tsx lines 275-278):
`getContainerSize` when dynamic sizing is enabled, the constant
`BASE_CONTAINER_SIZE = 2.5` otherwise. -/
noncomputable def containerSizeOf (dynamicContainerSize : Bool) (particleCount : ℕ) : ℝ :=
  if dynamicContainerSize then getContainerSize particleCount else 2.5

/-- Particle record produced by `generateParticles`. -/
structure Particle where
  id : ℕ
  position : Vec3
  velocity : Vec3

/-- One iteration of the `generateParticles` loop (PhysicsContainer.tsx lines
121-159) for index `i`.  The six `Math.random()` draws of the iteration are
`rand (6*i)` through `rand (6*i+5)`: three position coordinates, the speed
factor, and the two direction angles. -/
noncomputable def generateParticle (size maxVelocity containerSize : ℝ)
    (rand : ℕ → ℝ) (i : ℕ) : Particle :=
  let radius := size
  let halfSize := containerSize / 2
  let padding := radius * 2
  let x := rand (6 * i) * (containerSize - padding * 2) - halfSize + padding
  let y := rand (6 * i + 1) * (containerSize - padding * 2) - halfSize + padding
  let z := rand (6 * i + 2) * (containerSize - padding * 2) - halfSize + padding
  let speed := (0.5 + rand (6 * i + 3) * 0.5) * maxVelocity
  let phi := rand (6 * i + 4) * (2 * Real.pi)
  let theta := rand (6 * i + 5) * Real.pi
  { id := i, position := ⟨x, y, z⟩, velocity := sphericalVelocity speed phi theta }

/-- Embedding of `generateParticles`: the list of particles for indices
`0 .. count-1`. -/
noncomputable def generateParticles (count : ℕ) (size maxVelocity containerSize : ℝ)
    (rand : ℕ → ℝ) : List Particle :=
  (List.range count).map (generateParticle size maxVelocity containerSize rand)

/-- The target speeds recorded by the initialization effect (PhysicsContainer
lines 372-387): for each generated particle, the Euclidean magnitude of its
spawn velocity. -/
noncomputable def initParticleSpeeds (ps : List Particle) : List ℝ :=
  ps.map fun p => p.velocity.norm

/-! Shared lemmas about the embedded operations. -/

/-- A velocity drawn through the spherical conversion has magnitude `|speed|`. -/
theorem norm_sphericalVelocity (s phi theta : ℝ) :
    (sphericalVelocity s phi theta).norm = |s| := by
  unfold sphericalVelocity Vec3.norm Vec3.normSq
  have h1 := Real.sin_sq_add_cos_sq phi
  have h2 := Real.sin_sq_add_cos_sq theta
  have hsq : (s * (Real.sin theta * Real.cos phi)) ^ 2 +
      (s * (Real.sin theta * Real.sin phi)) ^ 2 + (s * Real.cos theta) ^ 2 = s ^ 2 := by
    linear_combination (s ^ 2 * Real.sin theta ^ 2) * h1 + s ^ 2 * h2
  rw [hsq, Real.sqrt_sq_eq_abs]

/-- Magnitude of a vector supported on the first axis. -/
theorem norm_axis (a : ℝ) : (Vec3.mk a 0 0).norm = |a| := by
  unfold Vec3.norm Vec3.normSq
  simp only []
  rw [show a ^ 2 + (0:ℝ) ^ 2 + (0:ℝ) ^ 2 = a ^ 2 by ring, Real.sqrt_sq_eq_abs]

theorem clamp01_nonneg (x : ℝ) : 0 ≤ clamp01 x := le_max_left _ _

theorem clamp01_le_one (x : ℝ) : clamp01 x ≤ 1 :=
  max_le (by norm_num) (min_le_left _ _)

theorem clamp01_mono {x y : ℝ} (h : x ≤ y) : clamp01 x ≤ clamp01 y :=
  max_le_max le_rfl (min_le_min le_rfl h)

theorem clamp01_eq_self {x : ℝ} (h0 : 0 ≤ x) (h1 : x ≤ 1) : clamp01 x = x := by
  unfold clamp01
  rw [min_eq_right h1, max_eq_right h0]

/-! Claim theorems. -/

/-- C3: for every particle count, radius and container side, `packingRatio`
equals `n × (4/3)π·r³ / s³`, and the warning level is critical iff the ratio is
at least 0.2, warning iff it lies in `[0.1, 0.2)`, and none iff it is below
0.1; for 100 particles of radius 0.08 in a container of side 2.5 the ratio lies
strictly between 0.0137 and 0.0138 and the level is none. -/
theorem C3_packing_ratio_and_warning_levels :
    (∀ n r s : ℝ,
      (calculatePackingRatio n r s).packingRatio = n * ((4 / 3) * Real.pi * r ^ 3) / s ^ 3 ∧
      ((calculatePackingRatio n r s).warningLevel = WarningLevel.critical ↔
        0.2 ≤ (calculatePackingRatio n r s).packingRatio) ∧
      ((calculatePackingRatio n r s).warningLevel = WarningLevel.warning ↔
        0.1 ≤ (calculatePackingRatio n r s).packingRatio ∧
          (calculatePackingRatio n r s).packingRatio < 0.2) ∧
      ((calculatePackingRatio n r s).warningLevel = WarningLevel.none ↔
        (calculatePackingRatio n r s).packingRatio < 0.1)) ∧
    0.0137 < (calculatePackingRatio 100 0.08 2.5).packingRatio ∧
    (calculatePackingRatio 100 0.08 2.5).packingRatio < 0.0138 ∧
    (calculatePackingRatio 100 0.08 2.5).warningLevel = WarningLevel.none := by
  have hpi1 : (3.14 : ℝ) < Real.pi := Real.pi_gt_314
  have hpi2 : Real.pi < 3.15 := Real.pi_lt_315
  have hval : (calculatePackingRatio 100 0.08 2.5).packingRatio = 1024 * Real.pi / 234375 := by
    simp only [calculatePackingRatio]
    ring
  have hconc1 : (0.0137 : ℝ) < (calculatePackingRatio 100 0.08 2.5).packingRatio := by
    rw [hval, lt_div_iff (by norm_num : (0:ℝ) < 234375)]
    nlinarith
  have hconc2 : (calculatePackingRatio 100 0.08 2.5).packingRatio < 0.0138 := by
    rw [hval, div_lt_iff (by norm_num : (0:ℝ) < 234375)]
    nlinarith
  refine ⟨fun n r s => ⟨?_, ?_, ?_, ?_⟩, hconc1, hconc2, ?_⟩
  · simp only [calculatePackingRatio]
    ring
  · simp only [calculatePackingRatio]
    split_ifs with h1 h2 <;> simp_all <;> linarith
  · simp only [calculatePackingRatio]
    split_ifs with h1 h2 <;> simp_all <;> linarith
  · simp only [calculatePackingRatio]
    split_ifs with h1 h2 <;> simp_all <;> linarith
  · simp only [calculatePackingRatio] at hconc2 ⊢
    split_ifs with h1 h2 <;> first | rfl | nlinarith

/-- C4: the adaptive thresholds computed by `calculateDensityAdjustedThreshold`
match the closed-form expressions `0.2·(1 − 0.8·clamp((d−0.1)/0.4, 0, 1)²)` and
`0.5 − 0.45·clamp((d−0.1)/0.4, 0, 1)^1.5`, both are monotonically non-increasing
in the density, and both are strictly decreasing between the low threshold 0.1
and the high threshold 0.5. -/
theorem C4_adaptive_thresholds_formula_and_monotone :
    (∀ d : ℝ,
      (calculateDensityAdjustedThreshold d).1 =
        0.2 * (1 - 0.8 * clamp01 ((d - 0.1) / 0.4) ^ 2) ∧
      (calculateDensityAdjustedThreshold d).2 =
        0.5 - 0.45 * clamp01 ((d - 0.1) / 0.4) ^ (1.5 : ℝ)) ∧
    (∀ d1 d2 : ℝ, d1 ≤ d2 →
      (calculateDensityAdjustedThreshold d2).1 ≤ (calculateDensityAdjustedThreshold d1).1 ∧
      (calculateDensityAdjustedThreshold d2).2 ≤ (calculateDensityAdjustedThreshold d1).2) ∧
    (∀ d1 d2 : ℝ, 0.1 ≤ d1 → d1 < d2 → d2 ≤ 0.5 →
      (calculateDensityAdjustedThreshold d2).1 < (calculateDensityAdjustedThreshold d1).1 ∧
      (calculateDensityAdjustedThreshold d2).2 < (calculateDensityAdjustedThreshold d1).2) := by
  have hform : ∀ d : ℝ,
      (calculateDensityAdjustedThreshold d).1 =
        0.2 * (1 - 0.8 * clamp01 ((d - 0.1) / 0.4) ^ 2) ∧
      (calculateDensityAdjustedThreshold d).2 =
        0.5 - 0.45 * clamp01 ((d - 0.1) / 0.4) ^ (1.5 : ℝ) := by
    intro d
    constructor <;>
      · simp only [calculateDensityAdjustedThreshold, clamp01]
        norm_num
  refine ⟨hform, ?_, ?_⟩
  · intro d1 d2 h
    have hdiv : (d1 - 0.1) / 0.4 ≤ (d2 - 0.1) / 0.4 := by
      gcongr
    have hm : clamp01 ((d1 - 0.1) / 0.4) ≤ clamp01 ((d2 - 0.1) / 0.4) := clamp01_mono hdiv
    have h0 := clamp01_nonneg ((d1 - 0.1) / 0.4)
    have hsq : clamp01 ((d1 - 0.1) / 0.4) ^ 2 ≤ clamp01 ((d2 - 0.1) / 0.4) ^ 2 :=
      pow_le_pow_left₀ h0 hm 2
    have hrpow : clamp01 ((d1 - 0.1) / 0.4) ^ (1.5 : ℝ) ≤
        clamp01 ((d2 - 0.1) / 0.4) ^ (1.5 : ℝ) :=
      Real.rpow_le_rpow h0 hm (by norm_num)
    rw [(hform d1).1, (hform d1).2, (hform d2).1, (hform d2).2]
    constructor <;> nlinarith
  · intro d1 d2 h1 h12 h2
    have hq1 : clamp01 ((d1 - 0.1) / 0.4) = (d1 - 0.1) / 0.4 :=
      clamp01_eq_self (div_nonneg (by linarith) (by norm_num))
        (by rw [div_le_one (by norm_num)]; linarith)
    have hq2 : clamp01 ((d2 - 0.1) / 0.4) = (d2 - 0.1) / 0.4 :=
      clamp01_eq_self (div_nonneg (by linarith) (by norm_num))
        (by rw [div_le_one (by norm_num)]; linarith)
    have hlt : clamp01 ((d1 - 0.1) / 0.4) < clamp01 ((d2 - 0.1) / 0.4) := by
      rw [hq1, hq2]
      exact div_lt_div_of_pos_right (by linarith) (by norm_num)
    have h0 := clamp01_nonneg ((d1 - 0.1) / 0.4)
    have hsq : clamp01 ((d1 - 0.1) / 0.4) ^ 2 < clamp01 ((d2 - 0.1) / 0.4) ^ 2 :=
      pow_lt_pow_left₀ hlt h0 (by norm_num)
    have hrpow : clamp01 ((d1 - 0.1) / 0.4) ^ (1.5 : ℝ) <
        clamp01 ((d2 - 0.1) / 0.4) ^ (1.5 : ℝ) :=
      Real.rpow_lt_rpow h0 hlt (by norm_num)
    rw [(hform d1).1, (hform d1).2, (hform d2).1, (hform d2).2]
    constructor <;> nlinarith

/-- In the zero-friction regime a particle sampled below speed 0.05 is reseeded
through the spherical conversion at `min(originalSpeed, 1.0)`. -/
theorem zeroFriction_reseed_eq (fc s phi theta : ℝ) (vel : Vec3)
    (hv : vel.norm < 0.05) :
    speedCorrection false false fc s phi theta vel =
      sphericalVelocity (min s 1.0) phi theta := by
  unfold speedCorrection zeroFrictionCorrect
  rw [if_pos ⟨rfl, rfl⟩]
  simp only []
  rw [if_pos hv]

/-- C2 (amended): in the zero-friction regime, a particle sampled below speed
0.05 has its velocity replaced by a randomly directed vector of magnitude
`min(targetSpeed, 1.0)` — the code caps the reseed speed at 1.0, so the
magnitude equals the target speed only when the target speed is at most 1.0; in
particular the scenario with `targetSpeed = 1.0` and `currentSpeed = 0.03` is
reseeded to speed exactly 1.0 by this branch rather than the 15%-deviation
boost path. -/
theorem C2_zero_friction_reseed_capped (fc s phi theta : ℝ) (vel : Vec3)
    (hv : vel.norm < 0.05) (hs : 0 ≤ s) :
    speedCorrection false false fc s phi theta vel =
      sphericalVelocity (min s 1.0) phi theta ∧
    (speedCorrection false false fc s phi theta vel).norm = min s 1.0 := by
  have heq := zeroFriction_reseed_eq fc s phi theta vel hv
  refine ⟨heq, ?_⟩
  rw [heq, norm_sphericalVelocity]
  exact abs_of_nonneg (le_min hs (by norm_num))

/-- Witness for C2 at the spec scenario: target speed 1.0, sampled speed
0.03. -/
theorem C2_witness :
    (Vec3.mk 0.03 0 0).norm < 0.05 ∧
    (speedCorrection false false 0.1 1 0 0 ⟨0.03, 0, 0⟩).norm = 1 := by
  have hv : (Vec3.mk 0.03 0 0).norm < 0.05 := by
    rw [norm_axis, abs_of_nonneg (by norm_num : (0:ℝ) ≤ 0.03)]
    norm_num
  refine ⟨hv, ?_⟩
  have h := (C2_zero_friction_reseed_capped 0.1 1 0 0 ⟨0.03, 0, 0⟩ hv (by norm_num)).2
  rw [show min (1:ℝ) 1.0 = 1 by norm_num] at h
  exact h

/-- C2 counterexample: a particle with target speed 2.0 sampled at speed 0.03
in the zero-friction regime is reseeded to magnitude 1, not to its target speed
2 as the claim states. -/
theorem C2_counterexample :
    (speedCorrection false false 0.1 2 0 0 ⟨0.03, 0, 0⟩).norm = 1 ∧ (1 : ℝ) ≠ 2 := by
  have hv : (Vec3.mk 0.03 0 0).norm < 0.05 := by
    rw [norm_axis, abs_of_nonneg (by norm_num : (0:ℝ) ≤ 0.03)]
    norm_num
  constructor
  · rw [zeroFriction_reseed_eq 0.1 2 0 0 ⟨0.03, 0, 0⟩ hv, norm_sphericalVelocity]
    norm_num
  · norm_num

/-- C5: after every mutation of a particle's collision status — initialization,
collision marking (which happens at a positive wall-clock time), fade-complete
reset, and stuck-recovery reset — the invariant holds that `isColliding` is
false if and only if the stored collision start time equals 0. -/
theorem C5_collision_status_invariant :
    statusInvariant initialCollisionStatus ∧
    (∀ fade t : ℝ, ∀ env : CollisionEnv, 0 < t →
      statusInvariant (handleParticleCollision fade t env).status) ∧
    (∀ fade t : ℝ, ∀ st : ParticleCollisionStatus, statusInvariant st →
      statusInvariant (fadeUpdateStatus fade t st)) ∧
    (∀ fade t : ℝ, ∀ st : ParticleCollisionStatus, statusInvariant st →
      statusInvariant (stuckRecoveryUpdate fade t st)) := by
  refine ⟨?_, ?_, ?_, ?_⟩
  · simp [statusInvariant, initialCollisionStatus]
  · intro fade t env ht
    simp [statusInvariant, handleParticleCollision]
    exact ht.ne'
  · intro fade t st h
    simp only [fadeUpdateStatus]
    split_ifs with h1 h2
    · exact h
    · simp [statusInvariant]
    · exact h
  · intro fade t st h
    unfold stuckRecoveryUpdate
    split_ifs with h1
    · simp [statusInvariant]
    · exact h

/-- Witness for C5: marking a collision at time 1 and fading at time 2 both
leave the invariant intact. -/
theorem C5_witness :
    statusInvariant (handleParticleCollision 0.5 1 ⟨0, initialCollisionStatus⟩).status ∧
    statusInvariant (fadeUpdateStatus 0.5 2 initialCollisionStatus) :=
  ⟨C5_collision_status_invariant.2.1 0.5 1 ⟨0, initialCollisionStatus⟩ (by norm_num),
   C5_collision_status_invariant.2.2.1 0.5 2 initialCollisionStatus
     C5_collision_status_invariant.1⟩

/-- C6: a particle whose sampled velocity has a NaN component, an infinite
component, or any component of magnitude above 100 has, in the same pass, its
velocity replaced by a randomly directed vector of magnitude
`min(targetSpeed, 2.0)` and is unconditionally marked colliding; moreover the
first pass maps the recovery over every particle independently, so one
particle's invalid velocity never aborts the tick for the others. -/
theorem C6_invalid_velocity_recovery :
    (∀ fade t : ℝ, ∀ p : TickParticle, hasInvalidVelocity p.vel → 0 < p.targetSpeed →
      (invalidVelocityStep fade t p).vel =
        toJSVec (sphericalVelocity (min p.targetSpeed 2.0) p.phi p.theta) ∧
      (sphericalVelocity (min p.targetSpeed 2.0) p.phi p.theta).norm =
        min p.targetSpeed 2.0 ∧
      (invalidVelocityStep fade t p).env.status.isColliding = true) ∧
    (∀ fade t : ℝ, ∀ ps : List TickParticle,
      (firstPassInvalidRecovery fade t ps).length = ps.length ∧
      ∀ i : ℕ, (firstPassInvalidRecovery fade t ps)[i]? =
        (ps[i]?).map (invalidVelocityStep fade t)) := by
  constructor
  · intro fade t p hinv hpos
    refine ⟨?_, ?_, ?_⟩
    · simp only [invalidVelocityStep]
      rw [if_pos hinv]
      simp [hpos.ne']
    · rw [norm_sphericalVelocity]
      exact abs_of_nonneg (le_min hpos.le (by norm_num))
    · simp only [invalidVelocityStep]
      rw [if_pos hinv]
      simp [handleParticleCollision]
  · intro fade t ps
    refine ⟨by simp [firstPassInvalidRecovery], fun i => ?_⟩
    simp [firstPassInvalidRecovery]

/-- Witness for C6: a velocity with a NaN x-component and target speed 1. -/
theorem C6_witness :
    hasInvalidVelocity ⟨.nan, .fin 0, .fin 0⟩ ∧
    (invalidVelocityStep 0.5 1
      ⟨1, 0, 0, ⟨.nan, .fin 0, .fin 0⟩, ⟨0, initialCollisionStatus⟩⟩).env.status.isColliding =
      true := by
  have hinv : hasInvalidVelocity ⟨.nan, .fin 0, .fin 0⟩ := Or.inl rfl
  exact ⟨hinv,
    (C6_invalid_velocity_recovery.1 0.5 1
      ⟨1, 0, 0, ⟨.nan, .fin 0, .fin 0⟩, ⟨0, initialCollisionStatus⟩⟩ hinv (by norm_num)).2.2⟩

/-- C8: whenever a non-skipped tick finds at least 0.5 s elapsed since the
previous flush, the accumulated collision counter is reported and the stored
counter immediately reset to zero with the flush time restamped; and two
consecutive reporting flushes are always separated by at least 0.5 s. -/
theorem C8_collision_flush_cadence :
    (∀ now : ℝ, ∀ st : FlushState, now - st.lastReportedCollisionTime ≥ 0.5 →
      (collisionFlush now st).1 = some st.collisionCounter ∧
      (collisionFlush now st).2.collisionCounter = 0 ∧
      (collisionFlush now st).2.lastReportedCollisionTime = now) ∧
    (∀ now1 now2 : ℝ, ∀ st : FlushState,
      (collisionFlush now1 st).1.isSome = true →
      (collisionFlush now2 (collisionFlush now1 st).2).1.isSome = true →
      now2 - now1 ≥ 0.5) := by
  constructor
  · intro now st h
    simp [collisionFlush, h]
  · intro now1 now2 st h1 h2
    by_cases hc1 : now1 - st.lastReportedCollisionTime ≥ 0.5
    · have hst2 : (collisionFlush now1 st).2 = ⟨0, now1⟩ := by
        simp [collisionFlush, hc1]
      rw [hst2] at h2
      by_cases hc2 : now2 - now1 ≥ 0.5
      · exact hc2
      · exfalso
        simp [collisionFlush, hc2] at h2
    · exfalso
      simp [collisionFlush, hc1] at h1

/-- Witness for C8: a flush one second after the previous one reports the
accumulated count 7 and resets the counter. -/
theorem C8_witness :
    ((1:ℝ) - 0 ≥ 0.5) ∧ (collisionFlush 1 ⟨7, 0⟩).1 = some 7 ∧
    (collisionFlush 1 ⟨7, 0⟩).2.collisionCounter = 0 :=
  ⟨by norm_num, (C8_collision_flush_cadence.1 1 ⟨7, 0⟩ (by norm_num)).1,
    (C8_collision_flush_cadence.1 1 ⟨7, 0⟩ (by norm_num)).2.1⟩

/-- C7 counterexample: with the simulation flagged inactive, the watchdog does
not reseed even though more than 5 seconds have elapsed since the last activity
and no particle's speed exceeds 0.005 — the sole particle keeps speed 0.001
instead of the claimed `min(targetSpeed, 2.0) = 1`. -/
theorem C7_counterexample :
    ((6000:ℝ) - 0 > 5000) ∧
    (∀ v ∈ [Vec3.mk 0.001 0 0], ¬ v.norm > 0.005) ∧
    (stallCheck 1 6000 (fun _ => 0) (fun _ => 0)
      ⟨0, false, [⟨0.001, 0, 0⟩], [1]⟩).velocities = [⟨0.001, 0, 0⟩] ∧
    Vec3.norm ⟨0.001, 0, 0⟩ ≠ min 1 2.0 := by
  have hn : Vec3.norm ⟨0.001, 0, 0⟩ = 0.001 := by
    rw [norm_axis, abs_of_nonneg (by norm_num : (0:ℝ) ≤ 0.001)]
  refine ⟨by norm_num, ?_, ?_, ?_⟩
  · intro v hv
    rw [List.mem_singleton] at hv
    rw [hv, hn]
    norm_num
  · simp [stallCheck]
  · rw [hn]
    norm_num

/-- C7 (amended): the stall watchdog never reseeds while any particle's speed
exceeds 0.005; and when more than 5 seconds have elapsed since the last
recorded activity, the simulation is still flagged active, and no particle's
speed exceeds 0.005, it reseeds every particle to a random direction with
magnitude `min(targetSpeed, 2.0)` and resets the activity clock, so that a
second invocation within the next 5 seconds changes nothing. -/
theorem C7_stall_watchdog :
    (∀ iv now : ℝ, ∀ rp rt : ℕ → ℝ, ∀ st : WatchdogState,
      (∃ v ∈ st.velocities, v.norm > 0.005) →
      (stallCheck iv now rp rt st).velocities = st.velocities) ∧
    (∀ iv now : ℝ, ∀ rp rt : ℕ → ℝ, ∀ st : WatchdogState,
      st.simulationActive = true →
      now - st.lastActivityTime > 5000 →
      (∀ v ∈ st.velocities, ¬ v.norm > 0.005) →
      (∀ ts ∈ st.targetSpeeds, 0 < ts) →
      (stallCheck iv now rp rt st).lastActivityTime = now ∧
      (stallCheck iv now rp rt st).velocities.length = st.velocities.length ∧
      (∀ i : ℕ, i < st.velocities.length → i < st.targetSpeeds.length →
        ((stallCheck iv now rp rt st).velocities.getD i default).norm =
          min (st.targetSpeeds.getD i 0) 2.0) ∧
      (∀ now2 : ℝ, ∀ rp2 rt2 : ℕ → ℝ, now2 - now ≤ 5000 →
        stallCheck iv now2 rp2 rt2 (stallCheck iv now rp rt st) =
          stallCheck iv now rp rt st)) := by
  constructor
  · intro iv now rp rt st hmv
    simp only [stallCheck]
    by_cases h1 : now - st.lastActivityTime > 5000 ∧ st.simulationActive = true
    · rw [if_pos h1, if_pos hmv]
    · rw [if_neg h1]
  · intro iv now rp rt st hact helapsed hnomv hts
    have hcond : now - st.lastActivityTime > 5000 ∧ st.simulationActive = true :=
      ⟨helapsed, hact⟩
    have hnomv2 : ¬ ∃ v ∈ st.velocities, v.norm > 0.005 := by
      rintro ⟨v, hv, hgt⟩
      exact hnomv v hv hgt
    have hst2 : stallCheck iv now rp rt st =
        { st with
          velocities := (List.range st.velocities.length).map fun i =>
            sphericalVelocity (stallReseedSpeed iv st.targetSpeeds i) (rp i) (rt i),
          lastActivityTime := now } := by
      simp only [stallCheck]
      rw [if_pos hcond, if_neg hnomv2]
    have hvel : (stallCheck iv now rp rt st).velocities =
        (List.range st.velocities.length).map fun i =>
          sphericalVelocity (stallReseedSpeed iv st.targetSpeeds i) (rp i) (rt i) := by
      rw [hst2]
    refine ⟨by rw [hst2], by rw [hvel]; simp, ?_, ?_⟩
    · intro i hiv hit
      have hget : (((List.range st.velocities.length).map fun i =>
          sphericalVelocity (stallReseedSpeed iv st.targetSpeeds i) (rp i) (rt i)).getD i
            default) =
          sphericalVelocity (stallReseedSpeed iv st.targetSpeeds i) (rp i) (rt i) := by
        rw [List.getD_eq_getElem?_getD]
        simp [List.getElem?_map, List.getElem?_range, hiv]
      rw [hvel, hget, norm_sphericalVelocity]
      have hstored : 0 < st.targetSpeeds.getD i 0 := by
        rw [List.getD_eq_getElem st.targetSpeeds 0 hit]
        exact hts _ (List.getElem_mem hit)
      simp only [stallReseedSpeed]
      rw [if_neg hstored.ne']
      exact abs_of_nonneg (le_min hstored.le (by norm_num))
    · intro now2 rp2 rt2 hle
      rw [hst2]
      simp only [stallCheck]
      rw [if_neg]
      rintro ⟨hgt, _⟩
      have hgt2 : now2 - now > 5000 := hgt
      linarith

/-- Witness for C7 (amended) at a concrete stalled state with the simulation
still flagged active. -/
theorem C7_witness :
    ((6000:ℝ) - 0 > 5000) ∧
    (stallCheck 1 6000 (fun _ => 0) (fun _ => 0)
      ⟨0, true, [⟨0.001, 0, 0⟩], [1]⟩).lastActivityTime = 6000 := by
  have hnomv : ∀ v ∈ [Vec3.mk 0.001 0 0], ¬ v.norm > 0.005 := by
    intro v hv
    rw [List.mem_singleton] at hv
    rw [hv, norm_axis, abs_of_nonneg (by norm_num : (0:ℝ) ≤ 0.001)]
    norm_num
  refine ⟨by norm_num, ?_⟩
  exact (C7_stall_watchdog.2 1 6000 (fun _ => 0) (fun _ => 0)
    ⟨0, true, [⟨0.001, 0, 0⟩], [1]⟩ rfl (by norm_num) hnomv
    (by intro ts hts
        rw [List.mem_singleton] at hts
        rw [hts]
        norm_num)).1

/-- C9: with dynamic sizing enabled the container side equals
`2.5 × clamp((particleCount/100)^(1/3), 0.8, 2.0)`, always lies in `[2, 5]`,
and is monotonically non-decreasing in the particle count; with the flag
disabled the side is the constant 2.5. -/
theorem C9_container_size :
    (∀ n : ℕ, containerSizeOf true n =
      2.5 * max 0.8 (min 2.0 (((n:ℝ) / 100) ^ ((1:ℝ) / 3)))) ∧
    (∀ n : ℕ, 2 ≤ containerSizeOf true n ∧ containerSizeOf true n ≤ 5) ∧
    (∀ m n : ℕ, m ≤ n → containerSizeOf true m ≤ containerSizeOf true n) ∧
    (∀ n : ℕ, containerSizeOf false n = 2.5) := by
  have hform : ∀ n : ℕ, containerSizeOf true n =
      2.5 * max 0.8 (min 2.0 (((n:ℝ) / 100) ^ ((1:ℝ) / 3))) := by
    intro n
    simp [containerSizeOf, getContainerSize]
  refine ⟨hform, ?_, ?_, fun n => by simp [containerSizeOf]⟩
  · intro n
    rw [hform n]
    have h0 : (0.8:ℝ) ≤ max 0.8 (min 2.0 (((n:ℝ) / 100) ^ ((1:ℝ) / 3))) := le_max_left _ _
    have h1 : max 0.8 (min 2.0 (((n:ℝ) / 100) ^ ((1:ℝ) / 3))) ≤ 2 :=
      max_le (by norm_num) ((min_le_left _ _).trans (by norm_num))
    constructor <;> nlinarith
  · intro m n hmn
    rw [hform m, hform n]
    have hr : ((m:ℝ) / 100) ^ ((1:ℝ) / 3) ≤ ((n:ℝ) / 100) ^ ((1:ℝ) / 3) := by
      apply Real.rpow_le_rpow (by positivity) ?_ (by norm_num)
      gcongr
    have hmax := max_le_max (le_refl (0.8:ℝ)) (min_le_min (le_refl (2.0:ℝ)) hr)
    nlinarith [hmax]

/-- Witness for C9 monotonicity at particle counts 50 and 200. -/
theorem C9_witness :
    50 ≤ 200 ∧ containerSizeOf true 50 ≤ containerSizeOf true 200 :=
  ⟨by norm_num, C9_container_size.2.2.1 50 200 (by norm_num)⟩

/-- Identity component of a generated particle. -/
theorem generateParticle_id (size v s : ℝ) (rand : ℕ → ℝ) (i : ℕ) :
    (generateParticle size v s rand i).id = i := rfl

/-- Velocity component of a generated particle. -/
theorem generateParticle_velocity (size v s : ℝ) (rand : ℕ → ℝ) (i : ℕ) :
    (generateParticle size v s rand i).velocity =
      sphericalVelocity ((0.5 + rand (6 * i + 3) * 0.5) * v)
        (rand (6 * i + 4) * (2 * Real.pi)) (rand (6 * i + 5) * Real.pi) := rfl

/-- Position component of a generated particle. -/
theorem generateParticle_position (size v s : ℝ) (rand : ℕ → ℝ) (i : ℕ) :
    (generateParticle size v s rand i).position =
      ⟨rand (6 * i) * (s - size * 2 * 2) - s / 2 + size * 2,
       rand (6 * i + 1) * (s - size * 2 * 2) - s / 2 + size * 2,
       rand (6 * i + 2) * (s - size * 2 * 2) - s / 2 + size * 2⟩ := rfl

/-- C10: for a configuration with `count` particles, radius `size`, speed bound
`v ≥ 0` and container side `s ≥ 4·size`, generation returns exactly `count`
particles with ids `0 .. count−1`, each with spawn speed in `[v/2, v]` (and
strictly below `v` when `v > 0`), each position component within
`±(s/2 − 2·size)`, and the recorded target speeds are exactly the spawn speed
magnitudes. -/
theorem C10_generate_particles :
    ∀ (count : ℕ) (size v s : ℝ) (rand : ℕ → ℝ),
      (∀ k, 0 ≤ rand k ∧ rand k < 1) → 0 ≤ v → 4 * size ≤ s →
      (generateParticles count size v s rand).map Particle.id = List.range count ∧
      (generateParticles count size v s rand).length = count ∧
      (∀ p ∈ generateParticles count size v s rand,
        v / 2 ≤ p.velocity.norm ∧ p.velocity.norm ≤ v ∧
        (0 < v → p.velocity.norm ≠ v) ∧
        |p.position.x| ≤ s / 2 - 2 * size ∧
        |p.position.y| ≤ s / 2 - 2 * size ∧
        |p.position.z| ≤ s / 2 - 2 * size) ∧
      initParticleSpeeds (generateParticles count size v s rand) =
        (generateParticles count size v s rand).map fun p => p.velocity.norm := by
  intro count size v s rand hrand hv hs
  refine ⟨?_, by simp [generateParticles], ?_, rfl⟩
  · simp [generateParticles, List.map_map]
    have : (Particle.id ∘ generateParticle size v s rand) = fun i => i := by
      funext i
      simp [Function.comp, generateParticle_id]
    rw [this]
    exact List.map_id' _
  · intro p hp
    simp only [generateParticles, List.mem_map, List.mem_range] at hp
    obtain ⟨i, hi, rfl⟩ := hp
    obtain ⟨hu0, hu1⟩ := hrand (6 * i + 3)
    have hnorm : (generateParticle size v s rand i).velocity.norm =
        (0.5 + rand (6 * i + 3) * 0.5) * v := by
      rw [generateParticle_velocity, norm_sphericalVelocity]
      exact abs_of_nonneg (by nlinarith)
    have hposbound : ∀ u : ℝ, 0 ≤ u → u < 1 →
        |u * (s - size * 2 * 2) - s / 2 + size * 2| ≤ s / 2 - 2 * size := by
      intro u h0 h1
      rw [abs_le]
      constructor
      · nlinarith [mul_nonneg h0 (by linarith : (0:ℝ) ≤ s - size * 2 * 2)]
      · nlinarith [mul_nonneg (by linarith : (0:ℝ) ≤ 1 - u)
          (by linarith : (0:ℝ) ≤ s - size * 2 * 2)]
    refine ⟨?_, ?_, ?_, ?_, ?_, ?_⟩
    · rw [hnorm]; nlinarith [mul_nonneg hu0 hv]
    · rw [hnorm]; nlinarith [mul_nonneg (by linarith : (0:ℝ) ≤ 1 - rand (6 * i + 3)) hv]
    · intro hvpos
      rw [hnorm]
      have : (0.5 + rand (6 * i + 3) * 0.5) * v < v := by
        nlinarith [mul_pos (show (0:ℝ) < 1 - rand (6 * i + 3) by linarith) hvpos]
      exact this.ne
    · rw [generateParticle_position]
      exact hposbound _ (hrand (6 * i)).1 (hrand (6 * i)).2
    · rw [generateParticle_position]
      exact hposbound _ (hrand (6 * i + 1)).1 (hrand (6 * i + 1)).2
    · rw [generateParticle_position]
      exact hposbound _ (hrand (6 * i + 2)).1 (hrand (6 * i + 2)).2

/-- Witness for C10 with two particles, radius 0.08, speed bound 1, container
side 2.5, and the constant random stream 1/2. -/
theorem C10_witness :
    (∀ k : ℕ, 0 ≤ (fun _ : ℕ => (1:ℝ)/2) k ∧ (fun _ : ℕ => (1:ℝ)/2) k < 1) ∧
    (0:ℝ) ≤ 1 ∧ 4 * (0.08:ℝ) ≤ 2.5 ∧
    (generateParticles 2 0.08 1 2.5 (fun _ => (1:ℝ)/2)).length = 2 := by
  have h1 : ∀ k : ℕ, 0 ≤ (fun _ : ℕ => (1:ℝ)/2) k ∧ (fun _ : ℕ => (1:ℝ)/2) k < 1 := by
    intro k
    norm_num
  exact ⟨h1, by norm_num, by norm_num,
    (C10_generate_particles 2 0.08 1 2.5 (fun _ => (1:ℝ)/2) h1 (by norm_num)
      (by norm_num)).2.1⟩

/-- C1: evaluation at the failing configuration (500 particles of radius 0.2 in
the fixed container of side 2.5).  The spec-modelled
`calculateMaxAllowableParticles` yields 93, and 93 is indeed the largest
integer count whose packing ratio stays below the critical threshold 0.2; the
density snapshot delivered by the physics layer is critical but carries no
`maxAllowableParticles`/`exceedsMaximum` data (the host reads JavaScript
`undefined`, i.e. falsy), so the host's clamp branch in `handleDensityWarning`
leaves the configured count at 500 instead of clamping it to 93. -/
theorem C1_max_allowable_clamp_dead :
    calculateMaxAllowableParticles 0.2 2.5 = 93 ∧
    (93:ℝ) * ((4/3) * Real.pi * (0.2:ℝ) ^ 3) / (2.5:ℝ) ^ 3 < 0.2 ∧
    ¬ ((94:ℝ) * ((4/3) * Real.pi * (0.2:ℝ) ^ 3) / (2.5:ℝ) ^ 3 < 0.2) ∧
    (deliveredWarningData 500 0.2 2.5).warningLevel = WarningLevel.critical ∧
    (deliveredWarningData 500 0.2 2.5).exceedsMaximum = false ∧
    (handleDensityWarning ⟨500, initialDensityWarning, false⟩
      (deliveredWarningData 500 0.2 2.5)).particleCount = 500 := by
  have hpi1 : (3.14 : ℝ) < Real.pi := Real.pi_gt_314
  have hpi2 : Real.pi < 3.15 := Real.pi_lt_315
  have hpi0 : (0:ℝ) < Real.pi := by linarith
  refine ⟨?_, ?_, ?_, ?_, rfl, ?_⟩
  · unfold calculateMaxAllowableParticles
    have hr : (0.2 * (2.5:ℝ) ^ 3) / ((4/3) * Real.pi * (0.2:ℝ) ^ 3) =
        9375 / (32 * Real.pi) := by
      rw [div_eq_div_iff (by positivity) (by positivity)]
      ring
    rw [hr, Int.floor_eq_iff]
    constructor
    · rw [le_div_iff (by positivity)]
      push_cast
      nlinarith
    · rw [div_lt_iff (by positivity)]
      push_cast
      nlinarith
  · rw [div_lt_iff (by positivity)]
    nlinarith
  · rw [not_lt, le_div_iff (by positivity)]
    nlinarith
  · simp only [deliveredWarningData, calculatePackingRatio]
    rw [if_pos]
    rw [ge_iff_le, le_div_iff (by positivity)]
    nlinarith
  · simp [handleDensityWarning, deliveredWarningData]

/-- Witness for C4 at concrete densities 0.2 and 0.3. -/
theorem C4_witness :
    (0.2 : ℝ) ≤ 0.3 ∧
    (calculateDensityAdjustedThreshold 0.3).1 ≤ (calculateDensityAdjustedThreshold 0.2).1 :=
  ⟨by norm_num,
    (C4_adaptive_thresholds_formula_and_monotone.2.1 0.2 0.3 (by norm_num)).1⟩

end ParticleSim

